import Mathlib

/-!
Verification of the resilient data-loading pipeline and view-selection logic
of the climate/IT-jobs dashboard (`streamlit_app.py`).

The embedding follows the source:
* `load_climate_data` / `create_sample_climate_data` — the dataset provider
  with its remote-fetch validation pipeline and deterministic synthetic
  fallback (source lines 119–176);
* the period-range filter, `nlargest` top-N selection and entity restriction
  used by the climate view (source lines 360–367);
* the static IT-job tables and their CSV export (source lines 179–238,
  527–546).

Metrics are embedded as rationals; machine floats only carry values here
(no float-specific behaviour is load-bearing for any property below).
-/

/-- One record of the climate dataset: columns `country`, `year`,
`co2_emissions` of the frame built by `load_climate_data`. -/
structure CRecord where
  country : String
  year : Int
  co2_emissions : Rat
deriving DecidableEq, Inhabited

/-- One row of the raw remote frame as parsed from the primary source
(`pd.read_csv(owid_url)` restricted to the three used columns); `co2 = none`
models a missing (NaN) value removed by `dropna`. -/
structure RawRow where
  country : String
  year : Int
  co2 : Option Rat
deriving DecidableEq

/-- A parsed remote response: `hasCols` is the result of the
`'country' in df.columns and 'year' in df.columns and 'co2' in df.columns`
check; `rows` the parsed records. -/
structure RawFrame where
  hasCols : Bool
  rows : List RawRow
deriving DecidableEq

/-- The external world as seen by one invocation of `load_climate_data`:
what each remote endpoint would deliver. `none` models a fetch/parse
exception (e.g. a network timeout). The source performs no fetch of the
secondary (World Bank) endpoint advertised in its sidebar, so
`load_climate_data` below never reads `secondary`; the field records what
that source would have returned. -/
structure FetchEnv where
  primary : Option RawFrame
  secondary : Option RawFrame

/-- The aggregate region names dropped by `load_climate_data`
(`~df['country'].isin([...])`). -/
def aggregateNames : List String :=
  ["World", "Asia", "Europe", "Africa", "North America", "South America",
   "Oceania", "High-income countries", "Low-income countries",
   "Middle-income countries", "Upper-middle-income countries"]

/-- `list(range(2000, 2023))` — the synthetic generator's year axis. -/
def sampleYears : List Int := (List.range 23).map (fun k => (2000 : Int) + (k : Int))

/-- The synthetic generator's country list paired with its
`base_emissions` dictionary, in source iteration order. -/
def countryBases : List (String × Rat) :=
  [("USA", 5000000), ("China", 9000000), ("India", 2200000),
   ("Germany", 750000), ("Japan", 1150000), ("South Korea", 580000),
   ("Brazil", 450000), ("Canada", 520000), ("Russia", 1650000),
   ("Australia", 410000), ("United Kingdom", 400000), ("France", 330000),
   ("Italy", 320000), ("Mexico", 460000), ("Indonesia", 610000)]

/-- The per-country linear trend of the synthetic generator:
growth 0.025/yr for the four growing economies, decline 0.015/yr for the
five declining ones, mild growth 0.005/yr otherwise. -/
def trendFor (country : String) (year : Int) : Rat :=
  if ["China", "India", "Indonesia", "Mexico"].contains country then
    ((year - 2000 : Int) : Rat) * (25 / 1000)
  else if ["USA", "Germany", "Japan", "United Kingdom", "France"].contains country then
    -(((year - 2000 : Int) : Rat) * (15 / 1000))
  else
    ((year - 2000 : Int) : Rat) * (5 / 1000)

/-- `covid_effect = -0.1 if year == 2020 else 0` — the one-period shock. -/
def covidFor (year : Int) : Rat := if year = 2020 then -(1 / 10) else 0

/-- Linear-congruential step standing in for NumPy's seeded global
generator state transition: each `np.random.normal` call advances the
global state deterministically. -/
def lcg (s : Nat) : Nat := (1103515245 * s + 12345) % 2147483648

/-- The bounded noise value drawn from generator state `g`, standing in
for `np.random.normal(0, 0.03)`: a deterministic pseudorandom rational in
`[-0.03, 0.03]`. Only determinism of the seeded stream and the `max` floor
below matter for the verified properties, not the Gaussian's exact values
(which are floating point). -/
def noiseVal (g : Nat) : Rat := (((g % 1201 : Nat) : Rat) - 600) / 20000

/-- The inner `for year in years` loop of `create_sample_climate_data` for
one country: one noise draw per year threading the generator state, value
`base * (1 + trend + covid_effect + noise)` floored at 10000 by
`max(10000, value)`. Returns the rows and the final generator state. -/
def genRows (c : String) (b : Rat) : List Int → Nat → List CRecord × Nat
  | [], g => ([], g)
  | y :: ys, g =>
    (CRecord.mk c y (max 10000 (b * (1 + trendFor c y + covidFor y + noiseVal (lcg g)))) ::
      (genRows c b ys (lcg g)).1,
     (genRows c b ys (lcg g)).2)

/-- The outer `for country in countries` loop, threading the generator
state across countries. -/
def genAll : List (String × Rat) → Nat → List CRecord
  | [], _ => []
  | cb :: rest, g => (genRows cb.1 cb.2 sampleYears g).1 ++ genAll rest (genRows cb.1 cb.2 sampleYears g).2

/-- `create_sample_climate_data` as a function of the incoming global
generator state `_g`: the function's first statement `np.random.seed(42)`
discards that state and restarts the stream at the fixed seed, so the
argument is unused. -/
def create_sample_climate_data_from (_g : Nat) : List CRecord := genAll countryBases 42

/-- `create_sample_climate_data()` — one invocation of the synthetic
generator (at an arbitrary incoming generator state). -/
def create_sample_climate_data : List CRecord := create_sample_climate_data_from 0

/-- The remote-validation pipeline of `load_climate_data` applied to a
parsed frame, in source order: column check, drop aggregate rows, select
and rename columns, `dropna` on `co2_emissions`, keep strictly positive
values, keep years 2000–2022, convert units (`* 1000`), and accept only if
strictly more than 500 records remain. `none` means the attempt failed its
quality check. -/
def processRemote (f : RawFrame) : Option (List CRecord) :=
  if f.hasCols then
    let countryRows := f.rows.filter (fun r => !(aggregateNames.contains r.country))
    let withCo2 := countryRows.filterMap (fun r => r.co2.map (fun c => CRecord.mk r.country r.year c))
    let positive := withCo2.filter (fun r => decide (0 < r.co2_emissions))
    let inRange := positive.filter (fun r => decide (2000 ≤ r.year) && decide (r.year ≤ 2022))
    let scaled := inRange.map (fun r => CRecord.mk r.country r.year (r.co2_emissions * 1000))
    if 500 < scaled.length then some scaled else none
  else none

/-- `load_climate_data()`: try the primary source (any exception is caught
by the `except` clause), return the validated live frame with provenance
flag `True` on success, otherwise fall back to `create_sample_climate_data()`
with flag `False`. The secondary source of `env` is never consulted. -/
def load_climate_data (env : FetchEnv) : List CRecord × Bool :=
  match env.primary with
  | none => (create_sample_climate_data, false)
  | some f =>
    match processRemote f with
    | some recs => (recs, true)
    | none => (create_sample_climate_data, false)

/-- The climate view's period-range filter
(`climate_df[(climate_df['year'] >= lo) & (climate_df['year'] <= hi)]`). -/
def filterByPeriodRange (d : List CRecord) (lo hi : Int) : List CRecord :=
  d.filter (fun r => decide (lo ≤ r.year) && decide (r.year ≤ hi))

/-- The rows of `d` at one period (`filtered_df[filtered_df['year'] == p]`). -/
def recordsAt (d : List CRecord) (p : Int) : List CRecord :=
  d.filter (fun r => r.year == p)

/-- Stable descending sort on the metric — the ordering semantics of
`nlargest(n, 'co2_emissions')` with its default `keep='first'`: rows
ordered by metric descending, ties kept in input order. -/
def sortByMetricDesc (d : List CRecord) : List CRecord :=
  d.insertionSort (fun a b => b.co2_emissions ≤ a.co2_emissions)

/-- `top_countries = filtered_df[filtered_df['year'] == p].nlargest(n,
'co2_emissions')['country'].tolist()` — the entity identifiers of the top
`n` rows at period `p`, metric descending, stable ties. -/
def topN (d : List CRecord) (n : Nat) (p : Int) : List String :=
  ((sortByMetricDesc (recordsAt d p)).take n).map CRecord.country

/-- `filtered_df[filtered_df['country'].isin(es)]` — keep only the rows of
the selected entity cohort. -/
def restrictToEntities (d : List CRecord) (es : List String) : List CRecord :=
  d.filter (fun r => es.contains r.country)

/-- The number of distinct entity identifiers occurring in a dataset. -/
def entityCount (d : List CRecord) : Nat :=
  ((d.map CRecord.country).toFinset).card

/-- A cell of an exported table: a text, integer, or one-decimal value
(the energy table's percentage column holds one-decimal floats; a `dec1`
value is the number of tenths). -/
inductive CsvCell where
  | str : String → CsvCell
  | int : Int → CsvCell
  | dec1 : Int → CsvCell
deriving DecidableEq

/-- The column type of a cell, used to re-parse exported text. -/
inductive CsvKind where
  | str : CsvKind
  | int : CsvKind
  | dec1 : CsvKind
deriving DecidableEq

/-- Split a character list at a separator; inverse of joining with the
separator when no piece contains it. -/
def splitCharList (sep : Char) : List Char → List (List Char)
  | [] => [[]]
  | c :: cs =>
    if c = sep then [] :: splitCharList sep cs
    else
      match splitCharList sep cs with
      | [] => [[c]]
      | f :: rest => (c :: f) :: rest

/-- Join character lists with a separator between them. -/
def intercalateChar (sep : Char) : List (List Char) → List Char
  | [] => []
  | [x] => x
  | x :: y :: ys => x ++ sep :: intercalateChar sep (y :: ys)

/-- Decimal digits of `n`, most significant first (`fuel ≥ n + 1` always
suffices; recursion is structural on the fuel). -/
def natDigits : Nat → Nat → List Char
  | 0, _ => []
  | fuel + 1, n =>
    if n < 10 then [Char.ofNat (48 + n)]
    else natDigits fuel (n / 10) ++ [Char.ofNat (48 + n % 10)]

/-- Render an integer the way the pandas CSV writer prints an `int64`
cell: optional minus sign, then decimal digits. -/
def renderInt (i : Int) : List Char :=
  if i < 0 then '-' :: natDigits (i.natAbs + 1) i.natAbs
  else natDigits (i.natAbs + 1) i.natAbs

/-- Accumulate decimal digits; `none` on any non-digit character. -/
def parseDigitsAux : List Char → Nat → Option Nat
  | [], acc => some acc
  | c :: cs, acc =>
    if 48 ≤ c.toNat && c.toNat ≤ 57 then parseDigitsAux cs (acc * 10 + (c.toNat - 48))
    else none

/-- Parse a non-empty digit string. -/
def parseDigits : List Char → Option Nat
  | [] => none
  | cs => parseDigitsAux cs 0

/-- Parse an optionally-signed decimal integer. -/
def parseIntChars : List Char → Option Int
  | [] => none
  | '-' :: rest => (parseDigits rest).map (fun n => -(n : Int))
  | cs => (parseDigits cs).map (fun n => (n : Int))

/-- Render a cell as the pandas CSV writer would: text verbatim (none of
the exported values contains a separator or quote-triggering character),
integers in decimal, one-decimal values as `whole.tenth` (all such values
in the exported tables are positive). -/
def renderCell : CsvCell → List Char
  | CsvCell.str s => s.data
  | CsvCell.int i => renderInt i
  | CsvCell.dec1 v => renderInt (v / 10) ++ '.' :: [Char.ofNat (48 + (v % 10).toNat)]

/-- Re-parse one field according to its column type. -/
def parseCell : CsvKind → List Char → Option CsvCell
  | CsvKind.str, cs => some (CsvCell.str (String.mk cs))
  | CsvKind.int, cs => (parseIntChars cs).map CsvCell.int
  | CsvKind.dec1, cs =>
    match splitCharList '.' cs with
    | [a, [d]] =>
      if 48 ≤ d.toNat && d.toNat ≤ 57 then
        (parseDigits a).map (fun n => CsvCell.dec1 ((n : Int) * 10 + ((d.toNat - 48 : Nat) : Int)))
      else none
    | _ => none

/-- Parse the fields of one row against the schema; fails on arity or
type mismatch. -/
def parseFields : List CsvKind → List (List Char) → Option (List CsvCell)
  | [], [] => some []
  | k :: ks, f :: fs =>
    match parseCell k f, parseFields ks fs with
    | some c, some cs => some (c :: cs)
    | _, _ => none
  | _, _ => none

/-- Parse one comma-separated data line. -/
def parseRowLine (schema : List CsvKind) (line : List Char) : Option (List CsvCell) :=
  parseFields schema (splitCharList ',' line)

/-- Parse every data line. -/
def parseAllRows (schema : List CsvKind) : List (List Char) → Option (List (List CsvCell))
  | [] => some []
  | l :: ls =>
    match parseRowLine schema l, parseAllRows schema ls with
    | some r, some rs => some (r :: rs)
    | _, _ => none

/-- The newline-terminated data lines of the export. -/
def csvBody : List (List CsvCell) → List Char
  | [] => []
  | r :: rs => intercalateChar ',' (r.map renderCell) ++ '\n' :: csvBody rs

/-- `df.to_csv(index=False, encoding='utf-8-sig')`: a byte-order marker,
a comma-separated header line, then one newline-terminated comma-separated
line per record. -/
def toCsv (header : List String) (rows : List (List CsvCell)) : String :=
  String.mk ('\uFEFF' :: (intercalateChar ',' (header.map String.data) ++ '\n' :: csvBody rows))

/-- Re-parse an exported table: strip the byte-order marker, split into
lines (dropping the empty fragment after the final newline), read the
header, and parse each data line against the schema. -/
def parseCsv (schema : List CsvKind) (s : String) : Option (List String × List (List CsvCell)) :=
  match s.data with
  | '\uFEFF' :: cs =>
    match splitCharList '\n' cs with
    | [] => none
    | hdr :: body =>
      let body2 := if body.getLast? = some [] then body.dropLast else body
      match parseAllRows schema body2 with
      | some rows => some ((splitCharList ',' hdr).map String.mk, rows)
      | none => none
  | _ => none

/-- One row of the static IT-job table `job_change_data`: job
classification (`직업 분류`), job name (`직업명`), outlook score
(`전망 점수`), related field (`연관 분야`), category (`카테고리`). -/
structure JobRow where
  cls : String
  name : String
  score : Int
  jobField : String
  category : String
deriving DecidableEq

/-- The static IT-job table of `create_it_job_data`, row by row in source
order: six at-risk jobs (`사라질 위험 직업`) with negative scores, then
fourteen emerging jobs (`새롭게 부상하는 직업`) with positive scores. -/
def jobTable : List JobRow :=
  [⟨"사라질 위험 직업", "기존 비효율 데이터센터 운영자", -8, "데이터센터", "전통 IT"⟩,
   ⟨"사라질 위험 직업", "전자폐기물 무관리 제조업체", -7, "제조업", "전통 IT"⟩,
   ⟨"사라질 위험 직업", "고전력 소모 하드웨어 개발자", -6, "하드웨어", "전통 IT"⟩,
   ⟨"사라질 위험 직업", "비친환경 IT 제품 기획자", -5, "IT제품", "전통 IT"⟩,
   ⟨"사라질 위험 직업", "탄소배출 무시 인프라 설계자", -7, "인프라", "전통 IT"⟩,
   ⟨"사라질 위험 직업", "비재생에너지 의존 시스템 관리자", -6, "시스템", "전통 IT"⟩,
   ⟨"새롭게 부상하는 직업", "그린 데이터센터 아키텍트", 9, "그린IT", "그린IT"⟩,
   ⟨"새롭게 부상하는 직업", "전자폐기물 순환경제 전문가", 8, "순환경제", "순환경제"⟩,
   ⟨"새롭게 부상하는 직업", "저전력 반도체 설계 엔지니어", 8, "반도체", "그린IT"⟩,
   ⟨"새롭게 부상하는 직업", "ESG IT 컨설턴트", 9, "ESG", "ESG"⟩,
   ⟨"새롭게 부상하는 직업", "탄소중립 시스템 개발자", 8, "탄소중립", "탄소중립"⟩,
   ⟨"새롭게 부상하는 직업", "신재생에너지 IT 통합 전문가", 8, "신재생에너지", "에너지"⟩,
   ⟨"새롭게 부상하는 직업", "친환경 AI/빅데이터 분석가", 9, "AI/빅데이터", "그린IT"⟩,
   ⟨"새롭게 부상하는 직업", "디지털 탄소발자국 측정 전문가", 7, "탄소관리", "탄소관리"⟩,
   ⟨"새롭게 부상하는 직업", "그린 클라우드 솔루션 아키텍트", 8, "클라우드", "그린IT"⟩,
   ⟨"새롭게 부상하는 직업", "환경규제 대응 IT 전문가", 7, "환경규제", "규제대응"⟩,
   ⟨"새롭게 부상하는 직업", "지속가능 IT 제품 디자이너", 7, "제품설계", "그린IT"⟩,
   ⟨"새롭게 부상하는 직업", "IT 에너지효율 최적화 전문가", 8, "에너지효율", "에너지효율"⟩,
   ⟨"새롭게 부상하는 직업", "기후테크 소프트웨어 개발자", 8, "기후테크", "기후테크"⟩,
   ⟨"새롭게 부상하는 직업", "환경감시 IoT 시스템 개발자", 7, "IoT", "기후테크"⟩]

/-- Header of the exported job table. -/
def jobHeader : List String := ["직업 분류", "직업명", "전망 점수", "연관 분야", "카테고리"]

/-- Column types of the exported job table. -/
def jobSchema : List CsvKind := [CsvKind.str, CsvKind.str, CsvKind.int, CsvKind.str, CsvKind.str]

/-- The job table as exported cell rows. -/
def jobCells : List (List CsvCell) :=
  jobTable.map (fun r =>
    [CsvCell.str r.cls, CsvCell.str r.name, CsvCell.int r.score,
     CsvCell.str r.jobField, CsvCell.str r.category])

/-- Header of the exported skills table `skills_data`. -/
def skillsHeader : List String := ["역량", "중요도 (%)", "성장률 (%)"]

/-- Column types of the exported skills table. -/
def skillsSchema : List CsvKind := [CsvKind.str, CsvKind.int, CsvKind.int]

/-- The static skills table of `create_it_job_data` as cell rows. -/
def skillsCells : List (List CsvCell) :=
  [[CsvCell.str "분석적 사고", CsvCell.int 85, CsvCell.int 15],
   [CsvCell.str "AI 및 빅데이터", CsvCell.int 80, CsvCell.int 25],
   [CsvCell.str "에너지 효율 설계", CsvCell.int 75, CsvCell.int 35],
   [CsvCell.str "친환경 기술 개발", CsvCell.int 78, CsvCell.int 32],
   [CsvCell.str "탄소 관리 능력", CsvCell.int 70, CsvCell.int 40],
   [CsvCell.str "순환경제 이해", CsvCell.int 65, CsvCell.int 28],
   [CsvCell.str "ESG 경영 지식", CsvCell.int 68, CsvCell.int 30],
   [CsvCell.str "환경규제 대응능력", CsvCell.int 72, CsvCell.int 25],
   [CsvCell.str "저전력 시스템 설계", CsvCell.int 73, CsvCell.int 30],
   [CsvCell.str "신재생에너지 통합", CsvCell.int 69, CsvCell.int 33]]

/-- Header of the exported energy-trend table `energy_trend_data`. -/
def energyHeader : List String :=
  ["연도", "데이터센터 전력소모 (TWh)", "전체 IT산업 탄소배출 (%)", "친환경 IT 투자 (조원)"]

/-- Column types of the exported energy-trend table (the carbon share
column holds one-decimal values). -/
def energySchema : List CsvKind := [CsvKind.int, CsvKind.int, CsvKind.dec1, CsvKind.int]

/-- The static energy-trend table of `create_it_job_data` as cell rows
(carbon shares are stored in tenths: `3.2` is `dec1 32`). -/
def energyCells : List (List CsvCell) :=
  [[CsvCell.int 2022, CsvCell.int 240, CsvCell.dec1 32, CsvCell.int 15],
   [CsvCell.int 2023, CsvCell.int 280, CsvCell.dec1 35, CsvCell.int 22],
   [CsvCell.int 2024, CsvCell.int 320, CsvCell.dec1 38, CsvCell.int 35],
   [CsvCell.int 2025, CsvCell.int 380, CsvCell.dec1 41, CsvCell.int 48],
   [CsvCell.int 2026, CsvCell.int 450, CsvCell.dec1 42, CsvCell.int 65],
   [CsvCell.int 2027, CsvCell.int 500, CsvCell.dec1 40, CsvCell.int 85],
   [CsvCell.int 2028, CsvCell.int 480, CsvCell.dec1 37, CsvCell.int 110],
   [CsvCell.int 2029, CsvCell.int 460, CsvCell.dec1 34, CsvCell.int 140],
   [CsvCell.int 2030, CsvCell.int 440, CsvCell.dec1 31, CsvCell.int 175],
   [CsvCell.int 2031, CsvCell.int 420, CsvCell.dec1 28, CsvCell.int 215]]

/-- Header of the exported climate-tech table `climate_tech_solutions`. -/
def climateTechHeader : List String :=
  ["솔루션", "2024 시장규모 (억달러)", "2030 예상규모 (억달러)", "연평균 성장률 (%)"]

/-- Column types of the exported climate-tech table. -/
def climateTechSchema : List CsvKind := [CsvKind.str, CsvKind.int, CsvKind.int, CsvKind.int]

/-- The static climate-tech table of `create_it_job_data` as cell rows. -/
def climateTechCells : List (List CsvCell) :=
  [[CsvCell.str "그린 데이터센터", CsvCell.int 120, CsvCell.int 450, CsvCell.int 24],
   [CsvCell.str "저전력 반도체", CsvCell.int 80, CsvCell.int 280, CsvCell.int 23],
   [CsvCell.str "AI 에너지 최적화", CsvCell.int 60, CsvCell.int 250, CsvCell.int 26],
   [CsvCell.str "재생에너지 관리시스템", CsvCell.int 90, CsvCell.int 320, CsvCell.int 23],
   [CsvCell.str "탄소 추적 플랫폼", CsvCell.int 40, CsvCell.int 180, CsvCell.int 28]]

/-- Header of the exported impact table `it_impact_data`. -/
def impactHeader : List String := ["영향 분야", "영향도 점수", "시급성", "대응 필요도"]

/-- Column types of the exported impact table. -/
def impactSchema : List CsvKind := [CsvKind.str, CsvKind.int, CsvKind.int, CsvKind.int]

/-- The static impact table of `create_it_job_data` as cell rows. -/
def impactCells : List (List CsvCell) :=
  [[CsvCell.str "에너지 소비", CsvCell.int 9, CsvCell.int 9, CsvCell.int 9],
   [CsvCell.str "탄소배출", CsvCell.int 8, CsvCell.int 9, CsvCell.int 9],
   [CsvCell.str "전자폐기물", CsvCell.int 7, CsvCell.int 6, CsvCell.int 7],
   [CsvCell.str "공급망 불안정", CsvCell.int 6, CsvCell.int 7, CsvCell.int 7],
   [CsvCell.str "ESG 경영", CsvCell.int 8, CsvCell.int 7, CsvCell.int 8],
   [CsvCell.str "친환경 규제", CsvCell.int 7, CsvCell.int 8, CsvCell.int 8],
   [CsvCell.str "기술혁신 촉진", CsvCell.int 9, CsvCell.int 8, CsvCell.int 9],
   [CsvCell.str "비즈니스 전략 변화", CsvCell.int 8, CsvCell.int 7, CsvCell.int 8]]

/-- A reachable, quality-passing response of the secondary (World Bank)
source: 501 valid country rows, enough to satisfy the `> 500` predicate. -/
def wbRows : List RawRow := List.replicate 501 ⟨"WB-Country", 2010, some 1⟩

/-- Environment of the missing-secondary scenario: the primary fetch
raises (timeout) while the secondary source is reachable with valid data. -/
def envSecondaryUp : FetchEnv := ⟨none, some ⟨true, wbRows⟩⟩

/-- Environment in which every remote attempt fails (timeout on the
primary fetch; the code attempts nothing else). -/
def envAllDown : FetchEnv := ⟨none, none⟩

/-- A primary response that passes the quality gate while containing one
row with an empty entity name: 501 valid rows plus one with `country` = "". -/
def envEmptyEntity : FetchEnv :=
  ⟨some ⟨true, ⟨"", 2010, some 1⟩ :: List.replicate 501 ⟨"A", 2010, some 1⟩⟩, none⟩

/-- A dataset with two records of the same entity at one period —
legitimate tabular input on which the top-N selection meets ties of
identity rather than of metric. -/
def dupEntityData : List CRecord :=
  [⟨"A", 2022, 100⟩, ⟨"A", 2022, 90⟩, ⟨"B", 2022, 50⟩]

/-- Small concrete dataset for the idempotence witness. -/
def idemWitnessData : List CRecord := [⟨"A", 2016, 5⟩, ⟨"B", 2010, 3⟩]

/-- Small concrete dataset for the top-N cardinality witness. -/
def topNWitnessData : List CRecord := [⟨"A", 2022, 100⟩, ⟨"B", 2022, 50⟩]

/-- Small concrete dataset for the empty-filter witness. -/
def emptyFilterWitnessData : List CRecord := [⟨"A", 2005, 1⟩]

lemma genRows_mem (c : String) (b : Rat) (ys : List Int) (g : Nat) (r : CRecord)
    (h : r ∈ (genRows c b ys g).1) :
    r.country = c ∧ r.year ∈ ys ∧ (10000 : Rat) ≤ r.co2_emissions := by
  induction ys generalizing g with
  | nil => simp [genRows] at h
  | cons y ys ih =>
    simp only [genRows] at h
    rcases List.mem_cons.mp h with h | h
    · subst h
      exact ⟨rfl, List.mem_cons_self _ _, le_max_left _ _⟩
    · obtain ⟨h1, h2, h3⟩ := ih (lcg g) h
      exact ⟨h1, List.mem_cons_of_mem _ h2, h3⟩

lemma genAll_mem (cbs : List (String × Rat)) (g : Nat) (r : CRecord)
    (h : r ∈ genAll cbs g) :
    r.country ∈ cbs.map Prod.fst ∧ r.year ∈ sampleYears ∧ (10000 : Rat) ≤ r.co2_emissions := by
  induction cbs generalizing g with
  | nil => simp [genAll] at h
  | cons cb rest ih =>
    simp only [genAll] at h
    rcases List.mem_append.mp h with h | h
    · obtain ⟨h1, h2, h3⟩ := genRows_mem _ _ _ _ _ h
      exact ⟨by simp [h1], h2, h3⟩
    · obtain ⟨h1, h2, h3⟩ := ih _ h
      exact ⟨List.mem_cons_of_mem _ h1, h2, h3⟩

lemma sample_mem (r : CRecord) (h : r ∈ create_sample_climate_data) :
    0 < r.co2_emissions ∧ 2000 ≤ r.year ∧ r.year ≤ 2022 ∧ r.country ≠ "" := by
  obtain ⟨h1, h2, h3⟩ := genAll_mem countryBases 42 r h
  have hy : ∀ y ∈ sampleYears, 2000 ≤ y ∧ y ≤ 2022 := by decide
  have hc : ∀ s ∈ countryBases.map Prod.fst, s ≠ "" := by decide
  exact ⟨lt_of_lt_of_le (by norm_num) h3, (hy _ h2).1, (hy _ h2).2, hc _ h1⟩

lemma processRemote_inv (f : RawFrame) (recs : List CRecord)
    (h : processRemote f = some recs) :
    500 < recs.length ∧
      ∀ r ∈ recs, 0 < r.co2_emissions ∧ 2000 ≤ r.year ∧ r.year ≤ 2022 := by
  simp only [processRemote] at h
  split at h
  · split at h
    · rename_i hlen
      obtain rfl : _ = recs := Option.some.inj h
      refine ⟨hlen, ?_⟩
      intro r hr
      obtain ⟨r0, hr0, rfl⟩ := List.mem_map.mp hr
      have h1 := List.mem_filter.mp hr0
      have h2 := List.mem_filter.mp h1.1
      have hy : 2000 ≤ r0.year ∧ r0.year ≤ 2022 := by
        have hb := h1.2
        simp only [Bool.and_eq_true, decide_eq_true_eq] at hb
        exact hb
      have hpos : 0 < r0.co2_emissions := by
        have hb := h2.2
        simpa using hb
      exact ⟨mul_pos hpos (by norm_num), hy.1, hy.2⟩
    · exact Option.noConfusion h
  · exact Option.noConfusion h

/-- C1. The claim says resolution attempts the primary remote source, then
the secondary remote source, then the synthetic generator. The code does
not: in an environment where the primary fetch raises and the secondary
(World Bank) source is reachable with data that passes the quality check
(`processRemote` succeeds on it), `load_climate_data` still returns the
synthetic sample with the synthetic provenance flag — the secondary source
is never attempted, contradicting the app's own source-priority panel. -/
theorem secondary_source_never_attempted :
    (processRemote ⟨true, wbRows⟩).isSome = true ∧
    load_climate_data envSecondaryUp = (create_sample_climate_data, false) :=
  ⟨by set_option maxRecDepth 100000 in decide, rfl⟩

/-- C2. Resolution is total (the embedding is a total function; the
source's `except` clause catches any fetch/parse error and the quality
fall-through reaches the same fallback line) and always returns a usable
dataset: for every environment the returned table is non-empty, and it is
either live (flag `true`) or exactly the never-failing synthetic sample. -/
theorem load_climate_data_total_usable (env : FetchEnv) :
    (load_climate_data env).1 ≠ [] ∧
    ((load_climate_data env).2 = true ∨
      (load_climate_data env).1 = create_sample_climate_data) := by
  obtain ⟨p, s⟩ := env
  cases p with
  | none => exact ⟨show create_sample_climate_data ≠ [] by decide, Or.inr rfl⟩
  | some f =>
    cases hp : processRemote f with
    | none =>
      have h1 : load_climate_data ⟨some f, s⟩ = (create_sample_climate_data, false) := by
        simp [load_climate_data, hp]
      rw [h1]
      exact ⟨show create_sample_climate_data ≠ [] by decide, Or.inr rfl⟩
    | some recs =>
      have h1 : load_climate_data ⟨some f, s⟩ = (recs, true) := by
        simp [load_climate_data, hp]
      rw [h1]
      have hlen := (processRemote_inv f recs hp).1
      exact ⟨List.ne_nil_of_length_pos (show 0 < recs.length by omega), Or.inl rfl⟩

/-- C3 counterexample. The claim requires the synthetic fallback dataset
to contain at least 500 records; when all remote sources fail the code
returns the synthetic sample, which has only 15 × 23 = 345 records. -/
theorem fallback_size_counterexample :
    load_climate_data envAllDown = (create_sample_climate_data, false) ∧
    create_sample_climate_data.length = 345 ∧ 345 < 500 :=
  ⟨rfl, by set_option maxRecDepth 100000 in decide, by decide⟩

/-- C3 amended. When all remote sources fail, resolution returns the
non-empty synthetic dataset tagged with the synthetic provenance flag
(`false`), containing 345 records (15 countries × 23 years) in which every
year of the declared range 2000–2022 is represented. -/
theorem fallback_sample_spec :
    load_climate_data envAllDown = (create_sample_climate_data, false) ∧
    create_sample_climate_data ≠ [] ∧
    create_sample_climate_data.length = 345 ∧
    ((List.range 23).all
      (fun k => create_sample_climate_data.any (fun r => r.year == 2000 + (k : Int)))) = true :=
  ⟨rfl, by decide, by set_option maxRecDepth 100000 in decide,
   by set_option maxRecDepth 100000 in decide⟩

/-- C4 counterexample. The claim requires every record of both resolution
outcomes to carry a non-empty entity name, but the live path never checks
it: a primary response that passes the quality gate may contain a record
with an empty `country`, which survives into the live result. -/
theorem live_empty_entity_counterexample :
    (load_climate_data envEmptyEntity).2 = true ∧
    ((load_climate_data envEmptyEntity).1.any (fun r => r.country == "")) = true :=
  ⟨by set_option maxRecDepth 100000 in decide,
   by set_option maxRecDepth 100000 in decide⟩

/-- C4 amended. Every record of the returned dataset — live or synthetic —
satisfies `metric > 0` and `2000 ≤ period ≤ 2022`; the entity name is
additionally non-empty whenever the result is synthetic (flag `false`).
The live path does not validate entity non-emptiness. -/
theorem resolve_record_invariants (env : FetchEnv) (r : CRecord)
    (h : r ∈ (load_climate_data env).1) :
    0 < r.co2_emissions ∧ 2000 ≤ r.year ∧ r.year ≤ 2022 ∧
      ((load_climate_data env).2 = false → r.country ≠ "") := by
  obtain ⟨p, s⟩ := env
  cases p with
  | none =>
    obtain ⟨h1, h2, h3, h4⟩ := sample_mem r h
    exact ⟨h1, h2, h3, fun _ => h4⟩
  | some f =>
    cases hp : processRemote f with
    | none =>
      have he : load_climate_data ⟨some f, s⟩ = (create_sample_climate_data, false) := by
        simp [load_climate_data, hp]
      rw [he] at h ⊢
      obtain ⟨h1, h2, h3, h4⟩ := sample_mem r h
      exact ⟨h1, h2, h3, fun _ => h4⟩
    | some recs =>
      have he : load_climate_data ⟨some f, s⟩ = (recs, true) := by
        simp [load_climate_data, hp]
      rw [he] at h ⊢
      obtain ⟨h1, h2, h3⟩ := (processRemote_inv f recs hp).2 r h
      exact ⟨h1, h2, h3, fun hq => Bool.noConfusion hq⟩

/-- C4 witness: the invariants evaluated at the all-sources-down
environment on the first returned record. -/
theorem resolve_record_invariants_witness :
    0 < ((load_climate_data envAllDown).1.head!).co2_emissions :=
  (resolve_record_invariants envAllDown _
    (List.head!_mem_self (show (load_climate_data envAllDown).1 ≠ [] by decide))).1

/-- C5. The synthetic generator is deterministic: its result does not
depend on the incoming global generator state, because `np.random.seed(42)`
restarts the stream at the fixed seed, so any two invocations produce the
identical table — same records, same values, same order. -/
theorem create_sample_climate_data_deterministic (g₁ g₂ : Nat) :
    create_sample_climate_data_from g₁ = create_sample_climate_data_from g₂ := rfl

/-- C10. In the static job table, the outlook score is positive exactly on
the rows classified as emerging jobs, so the declining-jobs toggle's filter
(`score > 0`) removes exactly the rows classified as at-risk jobs. -/
theorem job_score_positive_iff_emerging :
    (jobTable.all
      (fun r => (decide (0 < r.score)) == (r.cls == "새롭게 부상하는 직업"))) = true ∧
    jobTable.filter (fun r => decide (0 < r.score)) =
      jobTable.filter (fun r => !(r.cls == "사라질 위험 직업")) :=
  ⟨by decide, by decide⟩

/-- C6. The period-range filter is idempotent: filtering its own result
with the same bounds returns that result unchanged. -/
theorem filterByPeriodRange_idempotent (d : List CRecord) (lo hi : Int) (_h : lo ≤ hi) :
    filterByPeriodRange (filterByPeriodRange d lo hi) lo hi = filterByPeriodRange d lo hi := by
  unfold filterByPeriodRange
  exact List.filter_eq_self.mpr (fun r hr => (List.mem_filter.mp hr).2)

/-- C6 witness: idempotence evaluated on a concrete table and bounds. -/
theorem filterByPeriodRange_idempotent_witness :
    filterByPeriodRange (filterByPeriodRange idemWitnessData 2015 2022) 2015 2022 =
      filterByPeriodRange idemWitnessData 2015 2022 :=
  filterByPeriodRange_idempotent idemWitnessData 2015 2022 (by norm_num)

/-- C8. If the lower bound exceeds every period present in a non-empty
dataset, the period-range filter returns the empty table, and the top-N
selection on that empty table returns the empty entity list (both are
total functions — no error is possible). -/
theorem filter_above_all_periods_empty (d : List CRecord) (lo hi : Int) (n : Nat) (p : Int)
    (_hne : d ≠ []) (hlt : ∀ r ∈ d, r.year < lo) :
    filterByPeriodRange d lo hi = [] ∧ topN (filterByPeriodRange d lo hi) n p = [] := by
  have h1 : filterByPeriodRange d lo hi = [] := by
    unfold filterByPeriodRange
    refine List.filter_eq_nil_iff.mpr (fun r hr => ?_)
    have hy := hlt r hr
    simp only [Bool.and_eq_true, decide_eq_true_eq, not_and]
    intro h2
    omega
  refine ⟨h1, ?_⟩
  rw [h1]
  simp [topN, recordsAt, sortByMetricDesc]

/-- C8 witness: the empty-result behaviour evaluated on a concrete
dataset whose single period lies below the lower bound. -/
theorem filter_above_all_periods_empty_witness :
    filterByPeriodRange emptyFilterWitnessData 2010 2022 = [] :=
  (filter_above_all_periods_empty emptyFilterWitnessData 2010 2022 3 2010
    (by decide) (by decide)).1

lemma mem_topN_exists (d : List CRecord) (n : Nat) (p : Int) (x : String)
    (hx : x ∈ topN d n p) : ∃ r ∈ recordsAt d p, r.country = x := by
  obtain ⟨r, hr, rfl⟩ := List.mem_map.mp hx
  have hr' : r ∈ sortByMetricDesc (recordsAt d p) := List.take_subset _ _ hr
  have hr'' : r ∈ recordsAt d p := by
    simpa [sortByMetricDesc] using hr'
  exact ⟨r, hr'', rfl⟩

lemma restrict_entity_set (d : List CRecord) (n : Nat) (p : Int) :
    ((restrictToEntities d (topN d n p)).map CRecord.country).toFinset =
      (topN d n p).toFinset := by
  ext x
  simp only [List.mem_toFinset, List.mem_map, restrictToEntities, List.mem_filter]
  constructor
  · rintro ⟨r, ⟨hrd, hcontains⟩, rfl⟩
    exact List.elem_iff.mp hcontains
  · intro hx
    obtain ⟨r, hrp, rfl⟩ := mem_topN_exists d n p x hx
    exact ⟨r, ⟨(List.mem_filter.mp hrp).1, List.elem_iff.mpr hx⟩, rfl⟩

/-- C7 amended. For a dataset whose records at the reference period carry
pairwise-distinct entity identifiers (as both resolution outcomes of the
dashboard do), the top-N selection — stable descending ranking by metric,
then the first `n` entity identifiers — followed by restriction to those
entities yields at most `n` distinct entities, and fewer than `n` only
when fewer entities exist at the reference period. Without the
distinctness assumption the second part is false (see the
counterexample). -/
theorem topN_restrict_card (d : List CRecord) (n : Nat) (p : Int)
    (hnd : ((recordsAt d p).map CRecord.country).Nodup) :
    entityCount (restrictToEntities d (topN d n p)) ≤ n ∧
    (entityCount (restrictToEntities d (topN d n p)) < n →
      entityCount (recordsAt d p) < n) := by
  have hset := restrict_entity_set d n p
  have hlen_topN : (topN d n p).length = min n (recordsAt d p).length := by
    simp [topN, List.length_take, sortByMetricDesc]
  have hcard1 : entityCount (restrictToEntities d (topN d n p)) ≤ n :=
    calc entityCount (restrictToEntities d (topN d n p))
        = (topN d n p).toFinset.card := by rw [entityCount, hset]
      _ ≤ (topN d n p).length := List.toFinset_card_le _
      _ = min n (recordsAt d p).length := hlen_topN
      _ ≤ n := min_le_left _ _
  refine ⟨hcard1, ?_⟩
  intro hlt
  have hperm := List.perm_insertionSort
    (fun a b : CRecord => b.co2_emissions ≤ a.co2_emissions) (recordsAt d p)
  have hnds : ((sortByMetricDesc (recordsAt d p)).map CRecord.country).Nodup :=
    ((hperm.map CRecord.country).nodup_iff).mpr hnd
  have htopn_eq : topN d n p =
      ((sortByMetricDesc (recordsAt d p)).map CRecord.country).take n := by
    simp [topN, List.map_take]
  have hnodup_topN : (topN d n p).Nodup := by
    rw [htopn_eq]
    exact List.Nodup.sublist (List.take_sublist _ _) hnds
  have hcard_eq : entityCount (restrictToEntities d (topN d n p)) = (topN d n p).length := by
    rw [entityCount, hset, List.toFinset_card_of_nodup hnodup_topN]
  have hatp : entityCount (recordsAt d p) = (recordsAt d p).length := by
    rw [entityCount, List.toFinset_card_of_nodup hnd, List.length_map]
  rw [hcard_eq, hlen_topN] at hlt
  rw [hatp]
  by_contra hn
  push_neg at hn
  rw [min_eq_left hn] at hlt
  exact lt_irrefl _ hlt

/-- C7 witness: the cardinality bound evaluated on a concrete two-entity
dataset with `n = 1`. -/
theorem topN_restrict_card_witness :
    entityCount (restrictToEntities topNWitnessData (topN topNWitnessData 1 2022)) ≤ 1 :=
  (topN_restrict_card topNWitnessData 1 2022 (by decide)).1

/-- C7 counterexample. As stated — for every dataset — the claim is
false: on a dataset holding two records of the same entity at the
reference period, `topN` with `n = 2` selects that entity twice, so the
restriction yields 1 < 2 distinct entities although 2 entities exist at
the reference period. -/
theorem topN_restrict_card_counterexample :
    ¬ (∀ (d : List CRecord) (n : Nat) (p : Int),
        entityCount (restrictToEntities d (topN d n p)) < n →
          entityCount (recordsAt d p) < n) := by
  intro hclaim
  have h := hclaim dupEntityData 2 2022 (by decide)
  exact absurd h (by decide)

/-- C9. Round-trip of the serialized text export: for each of the five
exported tables (job, skills, energy-trend, climate-tech, impact),
serializing to the CSV text form — UTF-8 with byte-order marker, comma-
separated header row, one newline-terminated row per record — and
re-parsing reproduces exactly the same header and record rows (hence the
same record set, a fortiori ignoring row order). -/
theorem csv_export_round_trip :
    parseCsv jobSchema (toCsv jobHeader jobCells) = some (jobHeader, jobCells) ∧
    parseCsv skillsSchema (toCsv skillsHeader skillsCells) = some (skillsHeader, skillsCells) ∧
    parseCsv energySchema (toCsv energyHeader energyCells) = some (energyHeader, energyCells) ∧
    parseCsv climateTechSchema (toCsv climateTechHeader climateTechCells) =
      some (climateTechHeader, climateTechCells) ∧
    parseCsv impactSchema (toCsv impactHeader impactCells) = some (impactHeader, impactCells) :=
  ⟨by set_option maxRecDepth 600000 in decide,
   by set_option maxRecDepth 600000 in decide,
   by set_option maxRecDepth 600000 in decide,
   by set_option maxRecDepth 600000 in decide,
   by set_option maxRecDepth 600000 in decide⟩
